import Mathlib

/-!
Verification of the gokomoot pipeline (main.go): a four-stage converter that
fetches a Komoot tour page, extracts the embedded JSON payload, maps it to a
GPX track model, and writes the GPX file.

Coordinates are modelled as rationals: every numeric literal involved in the
range checks (−90, 90, −180, 180) is exactly representable in `float64`, and
the comparisons performed by the code are exact on such values, so `ℚ` is a
faithful model of the validation logic.

Strings handled by the extractor are modelled as `List Char`; the indices used
by `strings.Index` slice the same text they were computed from, so byte
indexing and character indexing agree at this level of abstraction.
-/

deriving instance DecidableEq for Except

namespace Gokomoot

/-- Configuration holds application settings (durations in milliseconds). -/
structure Configuration where
  UserAgent : String
  HTTPTimeout : ℕ
  MaxRetries : ℕ
  RetryInterval : ℕ
deriving DecidableEq

/-- DefaultConfig returns default configuration values
(user agent "komootgpx", 10 s timeout, 3 retries, 2 s retry interval). -/
def DefaultConfig : Configuration :=
  { UserAgent := "komootgpx", HTTPTimeout := 10000, MaxRetries := 3, RetryInterval := 2000 }

/-- Point represents a track point (xml attrs lat, lon; child element ele,
marked omitempty). -/
structure Point where
  Lat : ℚ
  Lon : ℚ
  Elevation : ℚ
deriving DecidableEq

/-- Segment represents a track segment (xml element trkseg). -/
structure Segment where
  Points : List Point
deriving DecidableEq

/-- Track represents a GPX track (xml elements name (omitempty) and trkseg). -/
structure Track where
  Name : String
  Segments : List Segment
deriving DecidableEq

/-- GPX represents the root gpx element (attrs version, creator; elements
name (omitempty) and trk). -/
structure GPX where
  Version : String
  Creator : String
  Name : String
  Tracks : List Track
deriving DecidableEq

/-- One raw coordinate item of the Komoot JSON payload. -/
structure CoordinateItem where
  Lat : ℚ
  Lng : ℚ
  Alt : ℚ
deriving DecidableEq

/-- The coordinates object of the payload. -/
structure Coordinates where
  Items : List CoordinateItem
deriving DecidableEq

/-- The _embedded object inside a tour. -/
structure TourEmbedded where
  Coordinates : Coordinates
deriving DecidableEq

/-- A tour: name plus embedded coordinates. -/
structure Tour where
  Name : String
  Embedded : TourEmbedded
deriving DecidableEq

/-- The _embedded object inside a page. -/
structure PageEmbedded where
  Tour : Tour
deriving DecidableEq

/-- The page object of the payload. -/
structure Page where
  Embedded : PageEmbedded
deriving DecidableEq

/-- KomootResponse represents the JSON structure from Komoot. -/
structure KomootResponse where
  Page : Page
deriving DecidableEq

/-- The error produced by Point.Validate, carrying the offending value
(Go: fmt.Errorf("invalid latitude: %f", p.Lat) / ("invalid longitude: %f", p.Lon)). -/
inductive PointError where
  | invalidLatitude (lat : ℚ)
  | invalidLongitude (lon : ℚ)
deriving DecidableEq

/-- The conversion errors of jsonToGPX
(Go: "no coordinates found in tour data" and "invalid point data: %w"). -/
inductive ConvError where
  | noCoordinates
  | invalidPointData (e : PointError)
deriving DecidableEq

/-- Validate checks if the point coordinates are valid; `none` means valid. -/
def Point.Validate (p : Point) : Option PointError :=
  if p.Lat < -90 ∨ p.Lat > 90 then some (PointError.invalidLatitude p.Lat)
  else if p.Lon < -180 ∨ p.Lon > 180 then some (PointError.invalidLongitude p.Lon)
  else none

/-- The point built from a coordinate item in the jsonToGPX loop
(Point{Lat: item.Lat, Lon: item.Lng, Elevation: item.Alt}). -/
def toPoint (item : CoordinateItem) : Point :=
  { Lat := item.Lat, Lon := item.Lng, Elevation := item.Alt }

/-- The loop body of jsonToGPX: build each point, validate it, and append it;
return the first validation error, if any. -/
def buildPoints : List CoordinateItem → Except PointError (List Point)
  | [] => Except.ok []
  | item :: rest =>
    let point := toPoint item
    match point.Validate with
    | some e => Except.error e
    | none =>
      match buildPoints rest with
      | Except.error e => Except.error e
      | Except.ok ps => Except.ok (point :: ps)

/-- jsonToGPX converts JSON data to GPX format. -/
def jsonToGPX (c : Configuration) (data : KomootResponse) : Except ConvError GPX :=
  let coordinates := data.Page.Embedded.Tour.Embedded.Coordinates.Items
  if coordinates.length = 0 then
    Except.error ConvError.noCoordinates
  else
    match buildPoints coordinates with
    | Except.error e => Except.error (ConvError.invalidPointData e)
    | Except.ok points =>
      Except.ok
        { Version := "1.1"
          Creator := c.UserAgent
          Name := data.Page.Embedded.Tour.Name
          Tracks := [{ Name := data.Page.Embedded.Tour.Name
                       Segments := [{ Points := points }] }] }

/-! ## Fetcher (makeHTTPRequest)

One attempt of the loop body (request construction, sending, status check and
body read) is abstracted as an oracle `res : ℕ → Except String String` giving
the outcome of each attempt; the observable side effects of the loop are
recorded as a trace of events. -/

/-- An observable event of the retry loop: performing attempt `n` (0-based),
or sleeping for `ms` milliseconds. -/
inductive FetchEvent where
  | attempt (n : ℕ)
  | sleep (ms : ℕ)
deriving DecidableEq

/-- The retry loop of makeHTTPRequest, structurally recursive on the number of
remaining iterations (`remaining` starts at MaxRetries, `attempt` at 0).
At the top of each iteration with `attempt > 0` it sleeps for the retry
interval; it returns the first successful body, or, once the loop is
exhausted, an error wrapping the last underlying error. -/
def fetchLoop (res : ℕ → Except String String) (interval : ℕ) :
    ℕ → ℕ → Option String → Except String String × List FetchEvent
  | 0, _, lastError =>
    (Except.error ("all retry attempts failed: " ++ lastError.getD ""), [])
  | remaining + 1, attempt, _lastError =>
    let pre : List FetchEvent := if 0 < attempt then [FetchEvent.sleep interval] else []
    match res attempt with
    | Except.ok body => (Except.ok body, pre ++ [FetchEvent.attempt attempt])
    | Except.error e =>
      let r := fetchLoop res interval remaining (attempt + 1) (some e)
      (r.1, pre ++ FetchEvent.attempt attempt :: r.2)

/-- makeHTTPRequest makes an HTTP GET request with retries; the loop runs for
`c.MaxRetries` iterations starting at attempt 0 with no last error. -/
def makeHTTPRequest (c : Configuration) (res : ℕ → Except String String) :
    Except String String × List FetchEvent :=
  fetchLoop res c.RetryInterval c.MaxRetries 0 none

/-- The event trace of a run in which all `n` attempts fail: attempt 0 first,
then one sleep before each further attempt, and no sleep after the last. -/
def fetchTrace (interval n : ℕ) : List FetchEvent :=
  FetchEvent.attempt 0 ::
    List.flatten ((List.range (n - 1)).map fun i =>
      [FetchEvent.sleep interval, FetchEvent.attempt (i + 1)])

/-! ## Extractor (extractJSONFromHTML) -/

/-- The literal start marker of the embedded JSON payload. -/
def startMarker : List Char := "kmtBoot.setProps(\"".data

/-- The literal end marker of the embedded JSON payload. -/
def endMarker : List Char := "\");".data

/-- strings.Index: the index of the first occurrence of `pat` in `s`,
or `none` when `pat` does not occur (Go returns -1). -/
def indexOf? (pat : List Char) : List Char → Option ℕ
  | [] => if pat <+: ([] : List Char) then some 0 else none
  | c :: rest =>
    if pat <+: (c :: rest) then some 0
    else (indexOf? pat rest).map (· + 1)

/-- Fuelled scan of strings.ReplaceAll: at each position, a non-empty `pat`
that starts there is replaced by `rep` and skipped, otherwise one character is
copied; `s.length` fuel suffices since every step consumes a character. -/
def replaceAllFuel (pat rep : List Char) : ℕ → List Char → List Char
  | _, [] => []
  | 0, s => s
  | fuel + 1, c :: rest =>
    if pat ≠ [] ∧ pat <+: (c :: rest) then
      rep ++ replaceAllFuel pat rep fuel (List.drop pat.length (c :: rest))
    else
      c :: replaceAllFuel pat rep fuel rest

/-- strings.ReplaceAll for a non-empty pattern: replace every non-overlapping
occurrence of `pat` in `s` by `rep`, scanning left to right. -/
def replaceAll (pat rep s : List Char) : List Char :=
  replaceAllFuel pat rep s.length s

/-- extractJSONFromHTML extracts JSON data embedded in the HTML content.
The call to html.UnescapeString (Go standard library) is abstracted as the
function argument `unescape`. -/
def extractJSONFromHTML (unescape : List Char → List Char) (htmlContent : List Char) :
    Except String (List Char) :=
  match indexOf? startMarker htmlContent with
  | none => Except.error "start marker not found in HTML content"
  | some idx =>
    let startIdx := idx + startMarker.length
    match indexOf? endMarker (htmlContent.drop startIdx) with
    | none => Except.error "end marker not found in HTML content"
    | some endIdx =>
      let jsonStr := (htmlContent.drop startIdx).take endIdx
      Except.ok (replaceAll ['\\', '\"'] ['\"']
        (replaceAll ['\\', '\\'] ['\\'] (unescape jsonStr)))

/-! ## Writer (writeGPX) and the XML document model

Go's encoding/xml encoder is modelled at the level of the XML document tree it
produces from the struct tags of GPX/Track/Segment/Point. Numeric values
(float64 attributes and the ele element) are kept as rationals in the tree:
Go prints a float64 with the shortest decimal that parses back to the same
float64, so a serialize/parse pair preserves the numeric value exactly, which
is what the `num`/`textN` constructors record. -/

/-- An XML attribute value: a plain string or a numeric (float64) value. -/
inductive AttrVal where
  | str (s : String)
  | num (q : ℚ)
deriving DecidableEq

/-- An XML node: an element with attributes and children, string text, or
numeric (float64) text. -/
inductive Xml where
  | elem (tag : String) (attrs : List (String × AttrVal)) (children : List Xml)
  | textS (s : String)
  | textN (q : ℚ)

/-- The trkpt element produced for a Point: lat and lon attributes, and an ele
child element unless Elevation is 0 (`xml:"ele,omitempty"`). -/
def pointToXml (p : Point) : Xml :=
  Xml.elem "trkpt" [("lat", AttrVal.num p.Lat), ("lon", AttrVal.num p.Lon)]
    (if p.Elevation = 0 then [] else [Xml.elem "ele" [] [Xml.textN p.Elevation]])

/-- The trkseg element produced for a Segment. -/
def segmentToXml (s : Segment) : Xml :=
  Xml.elem "trkseg" [] (s.Points.map pointToXml)

/-- The trk element produced for a Track: a name child unless the name is
empty (`xml:"name,omitempty"`), then the segments. -/
def trackToXml (t : Track) : Xml :=
  Xml.elem "trk" []
    ((if t.Name = "" then [] else [Xml.elem "name" [] [Xml.textS t.Name]])
      ++ t.Segments.map segmentToXml)

/-- The gpx root element produced for a GPX value: version and creator
attributes, a name child unless empty, then the tracks. -/
def gpxToXml (g : GPX) : Xml :=
  Xml.elem "gpx" [("version", AttrVal.str g.Version), ("creator", AttrVal.str g.Creator)]
    ((if g.Name = "" then [] else [Xml.elem "name" [] [Xml.textS g.Name]])
      ++ g.Tracks.map trackToXml)

/-- Read back the elevation of a trkpt element: no children means elevation 0
(the omitempty case), a single ele child carries the value. -/
def parseEle (children : List Xml) : Option ℚ :=
  match children with
  | [] => some 0
  | [Xml.elem "ele" [] [Xml.textN e]] => some e
  | _ => none

/-- Read back a Point from a trkpt element. -/
def parsePoint (x : Xml) : Option Point :=
  match x with
  | Xml.elem "trkpt" [("lat", AttrVal.num la), ("lon", AttrVal.num lo)] children =>
    (parseEle children).map (fun e => { Lat := la, Lon := lo, Elevation := e })
  | _ => none

/-- Whether a node is a trkseg element. -/
def isTrkseg (x : Xml) : Bool :=
  match x with
  | Xml.elem "trkseg" _ _ => true
  | _ => false

/-- Read back a list of trkpt elements, in document order; `none` as soon as
one element is not a well-formed trkpt. -/
def parsePointList : List Xml → Option (List Point)
  | [] => some []
  | x :: xs =>
    match parsePoint x, parsePointList xs with
    | some p, some ps => some (p :: ps)
    | _, _ => none

/-- Read back the points of a trkseg element, in document order. -/
def parseSegPoints (x : Xml) : Option (List Point) :=
  match x with
  | Xml.elem "trkseg" _ cs => parsePointList cs
  | _ => none

/-- Concatenate the points of a list of trkseg elements, in document order. -/
def parseSegList : List Xml → Option (List Point)
  | [] => some []
  | x :: xs =>
    match parseSegPoints x, parseSegList xs with
    | some ps, some rest => some (ps ++ rest)
    | _, _ => none

/-- Whether a node is a trk element. -/
def isTrk (x : Xml) : Bool :=
  match x with
  | Xml.elem "trk" _ _ => true
  | _ => false

/-- Read back the points of a trk element: the points of its trkseg children,
in document order. -/
def parseTrackPoints (x : Xml) : Option (List Point) :=
  match x with
  | Xml.elem "trk" _ cs => parseSegList (cs.filter isTrkseg)
  | _ => none

/-- Concatenate the points of a list of trk elements, in document order. -/
def parseTrackList : List Xml → Option (List Point)
  | [] => some []
  | x :: xs =>
    match parseTrackPoints x, parseTrackList xs with
    | some ps, some rest => some (ps ++ rest)
    | _, _ => none

/-- Read back the ordered point list of a gpx document: the points of its trk
children, in document order. -/
def parseGPXPoints (x : Xml) : Option (List Point) :=
  match x with
  | Xml.elem "gpx" _ cs => parseTrackList (cs.filter isTrk)
  | _ => none

/-- The fixed XML declaration header written before the encoded document. -/
def xmlHeader : String := "<?xml version=\"1.0\" encoding=\"UTF-8\"?>\n"

/-- A file system: output path to file contents (header text plus the encoded
document tree); `none` means the file does not exist. -/
def FS : Type := String → Option (String × Xml)

/-- writeGPX writes GPX data to a file: creates (or overwrites) `filename`
with the XML header and the encoded document. -/
def writeGPX (fs : FS) (g : GPX) (filename : String) : FS :=
  fun p => if p = filename then some (xmlHeader, gpxToXml g) else fs p

/-- The pipeline errors of Convert, each wrapping its stage's cause. -/
inductive PipelineError where
  | fetchFailed (msg : String)
  | extractFailed (msg : String)
  | parseFailed
  | convertFailed (e : ConvError)
deriving DecidableEq

/-- Convert performs the complete conversion process, threading the file
system state; the HTTP fetch outcome is abstracted as `fetchRes` and the
standard library's json.Unmarshal as `jsonUnmarshal` (`none` = parse error).
Each failing stage stops the pipeline, leaving the file system untouched. -/
def Convert (c : Configuration) (fetchRes : Except String (List Char))
    (unescape : List Char → List Char)
    (jsonUnmarshal : List Char → Option KomootResponse)
    (outputPath : String) (fs : FS) : FS × Except PipelineError Unit :=
  match fetchRes with
  | Except.error msg => (fs, Except.error (PipelineError.fetchFailed msg))
  | Except.ok htmlContent =>
    match extractJSONFromHTML unescape htmlContent with
    | Except.error msg => (fs, Except.error (PipelineError.extractFailed msg))
    | Except.ok jsonData =>
      match jsonUnmarshal jsonData with
      | none => (fs, Except.error PipelineError.parseFailed)
      | some resp =>
        match jsonToGPX c resp with
        | Except.error e => (fs, Except.error (PipelineError.convertFailed e))
        | Except.ok g => (writeGPX fs g outputPath, Except.ok ())

/-! ## Concrete sample inputs used by individual witnesses -/

/-- A valid one-point tour payload. -/
def c1Data : KomootResponse := { Page := ⟨⟨⟨"Test Tour", ⟨⟨[⟨48, 11, 520⟩]⟩⟩⟩⟩⟩ }

/-- A payload whose coordinate item list is empty. -/
def c1EmptyData : KomootResponse := { Page := ⟨⟨⟨"Empty Tour", ⟨⟨[]⟩⟩⟩⟩⟩ }

/-- An HTML page with both markers around the payload `a&amp;b`. -/
def c3Html : List Char := "xxkmtBoot.setProps(\"a&amp;b\");yy".data

/-- A payload whose only coordinate item has latitude 91. -/
def c4Data : KomootResponse := { Page := ⟨⟨⟨"Bad Tour", ⟨⟨[⟨91, 0, 0⟩]⟩⟩⟩⟩⟩ }

/-- A payload with a name but no coordinate items. -/
def c5Data : KomootResponse := { Page := ⟨⟨⟨"No Points", ⟨⟨[]⟩⟩⟩⟩⟩ }

/-- An HTML page containing no start marker. -/
def c6HtmlNoStart : List Char := "hello".data

/-- An HTML page whose only end marker occurrence lies before the start
marker, and no end marker follows the start marker. -/
def c6HtmlNoEnd : List Char := "\");kmtBoot.setProps(\"abc".data

/-- An HTML page with both markers around the payload `x`. -/
def c7Html : List Char := "kmtBoot.setProps(\"x\");".data

/-- A decoded payload whose only coordinate item has latitude 91. -/
def c7Resp : KomootResponse := { Page := ⟨⟨⟨"Invalid", ⟨⟨[⟨91, 0, 0⟩]⟩⟩⟩⟩⟩ }

/-- A valid two-point tour payload. -/
def c8Data : KomootResponse := { Page := ⟨⟨⟨"Two Points", ⟨⟨[⟨1, 2, 3⟩, ⟨4, 5, 0⟩]⟩⟩⟩⟩⟩ }

/-! ## Helper lemmas -/

theorem buildPoints_ok (l : List CoordinateItem)
    (h : ∀ it ∈ l, (toPoint it).Validate = none) :
    buildPoints l = Except.ok (l.map toPoint) := by
  induction l with
  | nil => rfl
  | cons item rest ih =>
    have hhead : (toPoint item).Validate = none := h item (by simp)
    have htail : ∀ it ∈ rest, (toPoint it).Validate = none :=
      fun it hit => h it (by simp [hit])
    simp [buildPoints, hhead, ih htail]

theorem buildPoints_first_error (pre : List CoordinateItem) (bad : CoordinateItem)
    (rest : List CoordinateItem) (e : PointError)
    (hpre : ∀ it ∈ pre, (toPoint it).Validate = none)
    (hbad : (toPoint bad).Validate = some e) :
    buildPoints (pre ++ bad :: rest) = Except.error e := by
  induction pre with
  | nil => simp [buildPoints, hbad]
  | cons item pre ih =>
    have hhead : (toPoint item).Validate = none := hpre item (by simp)
    have htail : ∀ it ∈ pre, (toPoint it).Validate = none :=
      fun it hit => hpre it (by simp [hit])
    simp [buildPoints, hhead, ih htail]

theorem buildPoints_error_of_invalid (l : List CoordinateItem)
    (h : ∃ it ∈ l, (toPoint it).Validate ≠ none) :
    ∃ e, buildPoints l = Except.error e := by
  induction l with
  | nil => simp at h
  | cons item rest ih =>
    cases hv : (toPoint item).Validate with
    | some e => exact ⟨e, by simp [buildPoints, hv]⟩
    | none =>
      have h' : ∃ it ∈ rest, (toPoint it).Validate ≠ none := by
        rcases h with ⟨it, hit, hne⟩
        rcases List.mem_cons.mp hit with rfl | hmem
        · exact absurd hv hne
        · exact ⟨it, hmem, hne⟩
      obtain ⟨e, he⟩ := ih h'
      exact ⟨e, by simp [buildPoints, hv, he]⟩

theorem jsonToGPX_ok_of_valid (c : Configuration) (data : KomootResponse)
    (h1 : data.Page.Embedded.Tour.Embedded.Coordinates.Items ≠ [])
    (h2 : ∀ it ∈ data.Page.Embedded.Tour.Embedded.Coordinates.Items,
      (toPoint it).Validate = none) :
    jsonToGPX c data = Except.ok
      { Version := "1.1", Creator := c.UserAgent,
        Name := data.Page.Embedded.Tour.Name,
        Tracks := [{ Name := data.Page.Embedded.Tour.Name,
                     Segments := [{ Points :=
                       data.Page.Embedded.Tour.Embedded.Coordinates.Items.map toPoint }] }] } := by
  have hlen : ¬(data.Page.Embedded.Tour.Embedded.Coordinates.Items.length = 0) := by
    simpa [List.length_eq_zero] using h1
  simp [jsonToGPX, hlen, buildPoints_ok _ h2]

theorem parsePoint_pointToXml (p : Point) : parsePoint (pointToXml p) = some p := by
  obtain ⟨la, lo, el⟩ := p
  by_cases h : el = 0
  · subst h
    simp [pointToXml, parsePoint, parseEle]
  · simp [pointToXml, parsePoint, parseEle, h]

theorem parsePointList_map (ps : List Point) :
    parsePointList (ps.map pointToXml) = some ps := by
  induction ps with
  | nil => rfl
  | cons p ps ih => simp [parsePointList, parsePoint_pointToXml p, ih]

theorem parseGPXPoints_single (v cr nm tn : String) (ps : List Point) :
    parseGPXPoints (gpxToXml
      { Version := v, Creator := cr, Name := nm,
        Tracks := [{ Name := tn, Segments := [{ Points := ps }] }] }) = some ps := by
  by_cases hnm : nm = "" <;> by_cases htn : tn = "" <;>
    simp [gpxToXml, trackToXml, segmentToXml, parseGPXPoints, parseTrackList,
      parseTrackPoints, parseSegList, parseSegPoints, isTrk, isTrkseg, hnm, htn,
      parsePointList_map]

theorem indexOf?_eq_some_of (pat s : List Char) (i : ℕ)
    (hocc : pat <+: s.drop i)
    (hmin : ∀ k < i, ¬ pat <+: s.drop k) :
    indexOf? pat s = some i := by
  induction s generalizing i with
  | nil =>
    cases i with
    | zero =>
      have h0 : pat <+: ([] : List Char) := by simpa using hocc
      simp [indexOf?, h0]
    | succ j =>
      exfalso
      exact hmin 0 (Nat.succ_pos j) (by simpa using hocc)
  | cons c rest ih =>
    cases i with
    | zero =>
      have h0 : pat <+: (c :: rest) := by simpa using hocc
      simp [indexOf?, h0]
    | succ j =>
      have h0 : ¬ pat <+: (c :: rest) := by simpa using hmin 0 (Nat.succ_pos j)
      have hocc' : pat <+: rest.drop j := by simpa using hocc
      have hmin' : ∀ k < j, ¬ pat <+: rest.drop k := fun k hk => by
        simpa using hmin (k + 1) (Nat.succ_lt_succ hk)
      simp [indexOf?, h0, ih j hocc' hmin']

theorem indexOf?_eq_none_of (pat s : List Char)
    (h : ∀ k ≤ s.length, ¬ pat <+: s.drop k) :
    indexOf? pat s = none := by
  induction s with
  | nil =>
    have h0 : ¬ pat <+: ([] : List Char) := by simpa using h 0 (Nat.le_refl 0)
    simp [indexOf?, h0]
  | cons c rest ih =>
    have h0 : ¬ pat <+: (c :: rest) := by simpa using h 0 (by simp)
    have h' : ∀ k ≤ rest.length, ¬ pat <+: rest.drop k := fun k hk => by
      simpa using h (k + 1) (by simpa using Nat.succ_le_succ hk)
    simp [indexOf?, h0, ih h']

theorem fetchLoop_all_fail (e : ℕ → String) (interval : ℕ) :
    ∀ (remaining attempt : ℕ) (le : Option String),
      fetchLoop (fun i => Except.error (e i)) interval (remaining + 1) attempt le =
        (Except.error ("all retry attempts failed: " ++ e (attempt + remaining)),
          (if 0 < attempt then [FetchEvent.sleep interval] else []) ++
            FetchEvent.attempt attempt ::
              List.flatten ((List.range remaining).map fun i =>
                [FetchEvent.sleep interval, FetchEvent.attempt (attempt + 1 + i)])) := by
  intro remaining
  induction remaining with
  | zero =>
    intro attempt le
    simp [fetchLoop]
  | succ m ih =>
    intro attempt le
    have hstep :
        fetchLoop (fun i => Except.error (e i)) interval (m + 1 + 1) attempt le =
          ((fetchLoop (fun i => Except.error (e i)) interval (m + 1) (attempt + 1)
              (some (e attempt))).1,
            (if 0 < attempt then [FetchEvent.sleep interval] else []) ++
              FetchEvent.attempt attempt ::
                (fetchLoop (fun i => Except.error (e i)) interval (m + 1) (attempt + 1)
                  (some (e attempt))).2) := rfl
    rw [hstep, ih (attempt + 1) (some (e attempt))]
    refine Prod.ext ?_ ?_
    · simp only []
      have : attempt + 1 + m = attempt + (m + 1) := by omega

      rw [this]
    · simp only [List.range_succ_eq_map, List.map_cons, List.map_map, List.flatten_cons,
        Nat.succ_pos, if_pos, List.append_assoc]
      simp [Function.comp]
      apply congrArg List.flatten
      apply List.map_congr_left
      intro a _
      have harith : attempt + 1 + 1 + a = attempt + 1 + (a + 1) := by omega
      simp [Function.comp, harith]

/-! ## Claim theorems -/

/-- Claim C1, counterexample to the claim as stated: the claim quantifies over
every point list with in-range coordinates, which includes the empty list, but
mapping an empty coordinate list fails with ConversionError, so no document is
produced to serialize and parse. -/
theorem roundtrip_claim_fails_on_empty_items :
    ¬ ∃ g, jsonToGPX DefaultConfig c1EmptyData = Except.ok g := by
  rintro ⟨g, hg⟩
  rw [(by decide :
    jsonToGPX DefaultConfig c1EmptyData = Except.error ConvError.noCoordinates)] at hg
  exact Except.noConfusion hg

/-- Claim C1 (amended to non-empty lists): for every non-empty coordinate item
list whose latitudes are in [-90,90] and longitudes in [-180,180], mapping
succeeds and parsing the serialized document recovers the same ordered point
list. -/
theorem jsonToGPX_serialize_parse_roundtrip (c : Configuration) (data : KomootResponse)
    (h1 : data.Page.Embedded.Tour.Embedded.Coordinates.Items ≠ [])
    (h2 : ∀ it ∈ data.Page.Embedded.Tour.Embedded.Coordinates.Items,
      (toPoint it).Validate = none) :
    ∃ g, jsonToGPX c data = Except.ok g ∧
      parseGPXPoints (gpxToXml g) =
        some (data.Page.Embedded.Tour.Embedded.Coordinates.Items.map toPoint) :=
  ⟨_, jsonToGPX_ok_of_valid c data h1 h2, parseGPXPoints_single _ _ _ _ _⟩

/-- Witness for the amended claim C1 at a concrete one-point payload. -/
theorem jsonToGPX_serialize_parse_roundtrip_witness :
    (c1Data.Page.Embedded.Tour.Embedded.Coordinates.Items ≠ [] ∧
      ∀ it ∈ c1Data.Page.Embedded.Tour.Embedded.Coordinates.Items,
        (toPoint it).Validate = none) ∧
    ∃ g, jsonToGPX DefaultConfig c1Data = Except.ok g ∧
      parseGPXPoints (gpxToXml g) =
        some (c1Data.Page.Embedded.Tour.Embedded.Coordinates.Items.map toPoint) :=
  ⟨⟨by decide, by decide⟩,
    jsonToGPX_serialize_parse_roundtrip DefaultConfig c1Data (by decide) (by decide)⟩

/-- Claim C2 (confirmed): with every attempt failing and MaxRetries = N ≥ 1
(N = 3 in the default configuration), the loop performs attempts 0 .. N−1,
sleeps the fixed retry interval exactly once between consecutive attempts and
not after the last, and returns an error wrapping the last attempt's error. -/
theorem makeHTTPRequest_exhausted_retries (c : Configuration) (e : ℕ → String)
    (h : 1 ≤ c.MaxRetries) :
    DefaultConfig.MaxRetries = 3 ∧
    makeHTTPRequest c (fun i => Except.error (e i)) =
      (Except.error ("all retry attempts failed: " ++ e (c.MaxRetries - 1)),
        fetchTrace c.RetryInterval c.MaxRetries) := by
  refine ⟨rfl, ?_⟩
  obtain ⟨m, hm⟩ : ∃ m, c.MaxRetries = m + 1 := ⟨c.MaxRetries - 1, by omega⟩
  unfold makeHTTPRequest
  rw [hm, fetchLoop_all_fail]
  refine Prod.ext ?_ ?_
  · simp
  · simp [fetchTrace]
    apply congrArg List.flatten
    apply List.map_congr_left
    intro a _
    have harith : 0 + 1 + a = a + 1 := by omega
    simp [harith]

/-- Witness for claim C2 with the default configuration and a constant
connection error. -/
theorem makeHTTPRequest_exhausted_retries_witness :
    1 ≤ DefaultConfig.MaxRetries ∧
    (DefaultConfig.MaxRetries = 3 ∧
      makeHTTPRequest DefaultConfig (fun i => Except.error ((fun _ => "connection refused") i)) =
        (Except.error ("all retry attempts failed: "
            ++ (fun _ : ℕ => "connection refused") (DefaultConfig.MaxRetries - 1)),
          fetchTrace DefaultConfig.RetryInterval DefaultConfig.MaxRetries)) :=
  ⟨by decide,
    makeHTTPRequest_exhausted_retries DefaultConfig (fun _ => "connection refused") (by decide)⟩

/-- Claim C3 (confirmed): when the start marker first occurs at index `i` and
the end marker first occurs at offset `j` of the text after the start marker,
extraction returns that substring transformed by, in order: entity unescaping,
replacement of escaped backslashes, replacement of escaped double quotes. -/
theorem extractJSONFromHTML_transforms_between_markers
    (unescape : List Char → List Char) (htmlContent : List Char) (i j : ℕ)
    (hs : startMarker <+: htmlContent.drop i)
    (hsmin : ∀ k < i, ¬ startMarker <+: htmlContent.drop k)
    (he : endMarker <+: (htmlContent.drop (i + startMarker.length)).drop j)
    (hemin : ∀ k < j, ¬ endMarker <+: (htmlContent.drop (i + startMarker.length)).drop k) :
    extractJSONFromHTML unescape htmlContent =
      Except.ok (replaceAll ['\\', '\"'] ['\"']
        (replaceAll ['\\', '\\'] ['\\']
          (unescape ((htmlContent.drop (i + startMarker.length)).take j)))) := by
  simp only [extractJSONFromHTML, indexOf?_eq_some_of _ _ _ hs hsmin,
    indexOf?_eq_some_of _ _ _ he hemin]

/-- Witness for claim C3 on a concrete page (markers around `a&amp;b`). -/
theorem extractJSONFromHTML_transforms_between_markers_witness :
    (startMarker <+: c3Html.drop 2 ∧
      (∀ k < 2, ¬ startMarker <+: c3Html.drop k) ∧
      endMarker <+: (c3Html.drop (2 + startMarker.length)).drop 7 ∧
      (∀ k < 7, ¬ endMarker <+: (c3Html.drop (2 + startMarker.length)).drop k)) ∧
    extractJSONFromHTML id c3Html =
      Except.ok (replaceAll ['\\', '\"'] ['\"']
        (replaceAll ['\\', '\\'] ['\\']
          (id ((c3Html.drop (2 + startMarker.length)).take 7)))) :=
  ⟨⟨by decide, by decide, by decide, by decide⟩,
    extractJSONFromHTML_transforms_between_markers id c3Html 2 7
      (by decide) (by decide) (by decide) (by decide)⟩

/-- Claim C4 (confirmed): at the first coordinate item whose point fails
validation, mapping fails with a ConversionError wrapping the Validate error,
which carries the offending latitude or longitude value; since mapping fails,
no invalid point is dropped or clamped into any output. -/
theorem jsonToGPX_fails_at_first_invalid_point (c : Configuration) (data : KomootResponse)
    (pre rest : List CoordinateItem) (bad : CoordinateItem) (e : PointError)
    (hitems : data.Page.Embedded.Tour.Embedded.Coordinates.Items = pre ++ bad :: rest)
    (hpre : ∀ it ∈ pre, (toPoint it).Validate = none)
    (hbad : (toPoint bad).Validate = some e) :
    jsonToGPX c data = Except.error (ConvError.invalidPointData e) := by
  have hlen : ¬((pre ++ bad :: rest).length = 0) := by simp
  simp [jsonToGPX, hitems, hlen, buildPoints_first_error pre bad rest e hpre hbad]

/-- Witness for claim C4 at a payload whose single item has latitude 91. -/
theorem jsonToGPX_fails_at_first_invalid_point_witness :
    (c4Data.Page.Embedded.Tour.Embedded.Coordinates.Items
        = [] ++ (⟨91, 0, 0⟩ : CoordinateItem) :: [] ∧
      (∀ it ∈ ([] : List CoordinateItem), (toPoint it).Validate = none) ∧
      (toPoint ⟨91, 0, 0⟩).Validate = some (PointError.invalidLatitude 91)) ∧
    jsonToGPX DefaultConfig c4Data
      = Except.error (ConvError.invalidPointData (PointError.invalidLatitude 91)) :=
  ⟨⟨by decide, by decide, by decide⟩,
    jsonToGPX_fails_at_first_invalid_point DefaultConfig c4Data [] [] ⟨91, 0, 0⟩
      (PointError.invalidLatitude 91) (by decide) (by decide) (by decide)⟩

/-- Claim C5 (confirmed): an empty coordinate item list always maps to
ConversionError "no coordinates found in tour data", never to a document. -/
theorem jsonToGPX_empty_coordinates (c : Configuration) (data : KomootResponse)
    (h : data.Page.Embedded.Tour.Embedded.Coordinates.Items = []) :
    jsonToGPX c data = Except.error ConvError.noCoordinates := by
  simp [jsonToGPX, h]

/-- Witness for claim C5 at a concrete empty payload. -/
theorem jsonToGPX_empty_coordinates_witness :
    c5Data.Page.Embedded.Tour.Embedded.Coordinates.Items = [] ∧
    jsonToGPX DefaultConfig c5Data = Except.error ConvError.noCoordinates :=
  ⟨by decide, jsonToGPX_empty_coordinates DefaultConfig c5Data (by decide)⟩

/-- Claim C6 (confirmed): a page without the start marker yields the error
"start marker not found in HTML content"; a page whose start marker first
occurs at `i` but with no end marker anywhere after it yields
"end marker not found in HTML content" (an end marker before the start marker
does not count, and no truncated text is returned). -/
theorem extractJSONFromHTML_marker_missing (unescape : List Char → List Char) :
    (∀ htmlContent : List Char,
      (∀ k ≤ htmlContent.length, ¬ startMarker <+: htmlContent.drop k) →
        extractJSONFromHTML unescape htmlContent =
          Except.error "start marker not found in HTML content") ∧
    (∀ (htmlContent : List Char) (i : ℕ),
      startMarker <+: htmlContent.drop i →
      (∀ k < i, ¬ startMarker <+: htmlContent.drop k) →
      (∀ k ≤ (htmlContent.drop (i + startMarker.length)).length,
          ¬ endMarker <+: (htmlContent.drop (i + startMarker.length)).drop k) →
        extractJSONFromHTML unescape htmlContent =
          Except.error "end marker not found in HTML content") := by
  constructor
  · intro htmlContent h
    simp only [extractJSONFromHTML, indexOf?_eq_none_of _ _ h]
  · intro htmlContent i hs hsmin hend
    simp only [extractJSONFromHTML, indexOf?_eq_some_of _ _ _ hs hsmin,
      indexOf?_eq_none_of _ _ hend]

/-- Witness for claim C6: a page with no start marker, and a page whose only
end marker occurrence lies before the start marker. -/
theorem extractJSONFromHTML_marker_missing_witness :
    ((∀ k ≤ c6HtmlNoStart.length, ¬ startMarker <+: c6HtmlNoStart.drop k) ∧
      extractJSONFromHTML id c6HtmlNoStart =
        Except.error "start marker not found in HTML content") ∧
    ((startMarker <+: c6HtmlNoEnd.drop 3 ∧
      (∀ k < 3, ¬ startMarker <+: c6HtmlNoEnd.drop k) ∧
      (∀ k ≤ (c6HtmlNoEnd.drop (3 + startMarker.length)).length,
          ¬ endMarker <+: (c6HtmlNoEnd.drop (3 + startMarker.length)).drop k)) ∧
      extractJSONFromHTML id c6HtmlNoEnd =
        Except.error "end marker not found in HTML content") :=
  ⟨⟨by decide, (extractJSONFromHTML_marker_missing id).1 c6HtmlNoStart (by decide)⟩,
    ⟨⟨by decide, by decide, by decide⟩,
      (extractJSONFromHTML_marker_missing id).2 c6HtmlNoEnd 3
        (by decide) (by decide) (by decide)⟩⟩

/-- Claim C7 (confirmed): when the decoded coordinate data contains a point
that fails validation, Convert fails with a ConversionError and the file
system is unchanged: the output path is not created and an existing file at
that path is untouched. -/
theorem Convert_writes_nothing_on_invalid_point (c : Configuration)
    (fetchRes : Except String (List Char)) (unescape : List Char → List Char)
    (jsonUnmarshal : List Char → Option KomootResponse)
    (outputPath : String) (fs : FS) (htmlContent jsonData : List Char) (resp : KomootResponse)
    (h1 : fetchRes = Except.ok htmlContent)
    (h2 : extractJSONFromHTML unescape htmlContent = Except.ok jsonData)
    (h3 : jsonUnmarshal jsonData = some resp)
    (h4 : ∃ it ∈ resp.Page.Embedded.Tour.Embedded.Coordinates.Items,
      (toPoint it).Validate ≠ none) :
    (Convert c fetchRes unescape jsonUnmarshal outputPath fs).1 = fs ∧
    ∃ e, (Convert c fetchRes unescape jsonUnmarshal outputPath fs).2 =
      Except.error (PipelineError.convertFailed (ConvError.invalidPointData e)) := by
  obtain ⟨e, he⟩ := buildPoints_error_of_invalid _ h4
  have hne : resp.Page.Embedded.Tour.Embedded.Coordinates.Items ≠ [] := by
    rcases h4 with ⟨it, hit, _⟩
    exact List.ne_nil_of_mem hit
  have hlen : ¬(resp.Page.Embedded.Tour.Embedded.Coordinates.Items.length = 0) := by
    simpa [List.length_eq_zero] using hne
  have hgpx : jsonToGPX c resp = Except.error (ConvError.invalidPointData e) := by
    simp [jsonToGPX, hlen, he]
  refine ⟨?_, ⟨e, ?_⟩⟩ <;> simp [Convert, h1, h2, h3, hgpx]

/-- Witness for claim C7 at a concrete pipeline run whose decoded payload has
a latitude-91 point, over an empty file system. -/
theorem Convert_writes_nothing_on_invalid_point_witness :
    (Except.ok c7Html = (Except.ok c7Html : Except String (List Char)) ∧
      extractJSONFromHTML id c7Html = Except.ok "x".data ∧
      (fun _ : List Char => some c7Resp) "x".data = some c7Resp ∧
      ∃ it ∈ c7Resp.Page.Embedded.Tour.Embedded.Coordinates.Items,
        (toPoint it).Validate ≠ none) ∧
    (Convert DefaultConfig (Except.ok c7Html) id (fun _ => some c7Resp)
        "route.gpx" (fun _ => none)).1 = (fun _ => none) ∧
    ∃ e, (Convert DefaultConfig (Except.ok c7Html) id (fun _ => some c7Resp)
        "route.gpx" (fun _ => none)).2 =
      Except.error (PipelineError.convertFailed (ConvError.invalidPointData e)) :=
  ⟨⟨rfl, by decide, rfl, by decide⟩,
    Convert_writes_nothing_on_invalid_point DefaultConfig (Except.ok c7Html) id
      (fun _ => some c7Resp) "route.gpx" (fun _ => none) c7Html "x".data c7Resp
      rfl (by decide) rfl (by decide)⟩

/-- Claim C8 (confirmed): a non-empty, all-valid coordinate list maps to a
document with exactly one track containing exactly one segment whose point
sequence is the item list mapped to points, preserving length and order. -/
theorem jsonToGPX_single_track_single_segment (c : Configuration) (data : KomootResponse)
    (h1 : data.Page.Embedded.Tour.Embedded.Coordinates.Items ≠ [])
    (h2 : ∀ it ∈ data.Page.Embedded.Tour.Embedded.Coordinates.Items,
      (toPoint it).Validate = none) :
    jsonToGPX c data = Except.ok
      { Version := "1.1", Creator := c.UserAgent,
        Name := data.Page.Embedded.Tour.Name,
        Tracks := [{ Name := data.Page.Embedded.Tour.Name,
                     Segments := [{ Points :=
                       data.Page.Embedded.Tour.Embedded.Coordinates.Items.map toPoint }] }] } :=
  jsonToGPX_ok_of_valid c data h1 h2

/-- Witness for claim C8 at a concrete two-point payload. -/
theorem jsonToGPX_single_track_single_segment_witness :
    (c8Data.Page.Embedded.Tour.Embedded.Coordinates.Items ≠ [] ∧
      ∀ it ∈ c8Data.Page.Embedded.Tour.Embedded.Coordinates.Items,
        (toPoint it).Validate = none) ∧
    jsonToGPX DefaultConfig c8Data = Except.ok
      { Version := "1.1", Creator := DefaultConfig.UserAgent,
        Name := c8Data.Page.Embedded.Tour.Name,
        Tracks := [{ Name := c8Data.Page.Embedded.Tour.Name,
                     Segments := [{ Points :=
                       c8Data.Page.Embedded.Tour.Embedded.Coordinates.Items.map toPoint }] }] } :=
  ⟨⟨by decide, by decide⟩,
    jsonToGPX_single_track_single_segment DefaultConfig c8Data (by decide) (by decide)⟩

/-- Claim C9 (confirmed): validation treats the bounds as inclusive; points
with latitude exactly −90 or 90, or longitude exactly −180 or 180, pass. -/
theorem Validate_bounds_inclusive (lat lon elev : ℚ)
    (hlat : -90 ≤ lat ∧ lat ≤ 90) (hlon : -180 ≤ lon ∧ lon ≤ 180) :
    (Point.mk (-90) lon elev).Validate = none ∧
    (Point.mk 90 lon elev).Validate = none ∧
    (Point.mk lat (-180) elev).Validate = none ∧
    (Point.mk lat 180 elev).Validate = none := by
  have hlat' : ¬(lat < -90 ∨ lat > 90) := by
    push_neg
    exact ⟨hlat.1, hlat.2⟩
  have hlon' : ¬(lon < -180 ∨ lon > 180) := by
    push_neg
    exact ⟨hlon.1, hlon.2⟩
  refine ⟨?_, ?_, ?_, ?_⟩ <;> unfold Point.Validate
  · rw [if_neg (by norm_num), if_neg hlon']
  · rw [if_neg (by norm_num), if_neg hlon']
  · rw [if_neg hlat', if_neg (by norm_num)]
  · rw [if_neg hlat', if_neg (by norm_num)]

/-- Witness for claim C9 at lat = 0, lon = 0, elevation = 5. -/
theorem Validate_bounds_inclusive_witness :
    ((-90 : ℚ) ≤ 0 ∧ (0 : ℚ) ≤ 90) ∧ ((-180 : ℚ) ≤ 0 ∧ (0 : ℚ) ≤ 180) ∧
    ((Point.mk (-90) 0 5).Validate = none ∧
      (Point.mk 90 0 5).Validate = none ∧
      (Point.mk 0 (-180) 5).Validate = none ∧
      (Point.mk 0 180 5).Validate = none) :=
  ⟨⟨by decide, by decide⟩, ⟨by decide, by decide⟩,
    Validate_bounds_inclusive 0 0 5 ⟨by decide, by decide⟩ ⟨by decide, by decide⟩⟩

/-- Claim C10 (confirmed): a point whose elevation is 0 is serialized with no
ele element at all (the omitempty case), so elevation 0 and absent elevation
produce the same trkpt element in the written document. -/
theorem pointToXml_omits_zero_elevation (p : Point) (h : p.Elevation = 0) :
    pointToXml p =
      Xml.elem "trkpt" [("lat", AttrVal.num p.Lat), ("lon", AttrVal.num p.Lon)] [] := by
  simp [pointToXml, h]

/-- Witness for claim C10 at a concrete point with elevation 0. -/
theorem pointToXml_omits_zero_elevation_witness :
    (Point.mk 1 2 0).Elevation = 0 ∧
    pointToXml (Point.mk 1 2 0) =
      Xml.elem "trkpt" [("lat", AttrVal.num 1), ("lon", AttrVal.num 2)] [] :=
  ⟨rfl, pointToXml_omits_zero_elevation (Point.mk 1 2 0) rfl⟩

end Gokomoot
